import Mathlib

/-!  Verification development for the charm validation engine
(`charmtools/charms.py`).

The embedding is shallow: Python runtime values are `PyVal`, the diagnostic
sink is `LinterState`, the filesystem observations that `Charm.proof` makes
are collected in a `CharmFS` record, and Python exceptions are values of
`PyErr` threaded through result pairs (`LRes`).  Every definition is a direct
translation of the corresponding code in `src/charmtools/charms.py`, except
for the diagnostic sink, whose class (`Linter`, module `linter`) is not under
`src/` and is therefore modelled from the spec (sections 3, 4.1). -/

namespace Charms

/-- Severity levels of the diagnostic sink (spec section 3, `Diagnostic`). -/
inductive Severity
  | info
  | warn
  | err
  | crit
deriving DecidableEq, Repr

/-- One diagnostic: a severity tag plus a message string. -/
structure Diag where
  sev : Severity
  msg : String
deriving DecidableEq, Repr

/-- Modelled from the spec: the `Linter` base class lives in the module
`linter`, which is not under `src/`.  Spec 4.1: `info`/`warn`/`err`/`crit`
each append one diagnostic; the sink exposes the accumulated sequence
(`self.lint`) and a computed exit code (`self.exit_code`).  Spec 3 and 6:
the exit code is zero only if no error-or-worse diagnostic exists; the exact
mapping is an implementation choice, modelled here as: `err`/`crit` set a
zero exit code to 1 and keep any nonzero code (so the explicit `-1`
assignment made by `proof` on an IO failure is preserved). -/
structure LinterState where
  lint : List Diag
  exit_code : Int
deriving DecidableEq, Repr

/-- Modelled from the spec: a fresh sink, as built by `CharmLinter()`. -/
def LinterState.initial : LinterState := ⟨[], 0⟩

/-- Modelled from the spec: `self.info(msg)` appends an advisory message. -/
def LinterState.info (st : LinterState) (m : String) : LinterState :=
  { st with lint := st.lint ++ [⟨Severity.info, m⟩] }

/-- Modelled from the spec: `self.warn(msg)` appends a warning. -/
def LinterState.warn (st : LinterState) (m : String) : LinterState :=
  { st with lint := st.lint ++ [⟨Severity.warn, m⟩] }

/-- Modelled from the spec: `self.err(msg)` appends an error and makes the
exit code nonzero. -/
def LinterState.err (st : LinterState) (m : String) : LinterState :=
  { lint := st.lint ++ [⟨Severity.err, m⟩]
    exit_code := if st.exit_code = 0 then 1 else st.exit_code }

/-- Modelled from the spec: `self.crit(msg)` appends a critical message and
makes the exit code nonzero. -/
def LinterState.crit (st : LinterState) (m : String) : LinterState :=
  { lint := st.lint ++ [⟨Severity.crit, m⟩]
    exit_code := if st.exit_code = 0 then 1 else st.exit_code }

/-- Python exceptions that `charms.py` can raise or catch. -/
inductive PyErr
  | ioError
  | keyError (k : String)
  | attributeError (a : String)
  | typeError (m : String)
deriving DecidableEq, Repr

/-! ## String helpers (models of the Python string operations used) -/

/-- Char-list version: does `hay` start with `needle`? -/
def leadsWith : List Char → List Char → Bool
  | _, [] => true
  | [], _ :: _ => false
  | a :: as, b :: bs => a = b && leadsWith as bs

/-- Char-list version: does `needle` occur contiguously inside `hay`?
This is the semantics of Python's `needle in hay` for strings and of
`re.search` on the literal regexes appearing in `charms.py`. -/
def hasSub : List Char → List Char → Bool
  | [], needle => needle.isEmpty
  | a :: t, needle => leadsWith (a :: t) needle || hasSub t needle

/-- Python `needle in hay` on strings. -/
def strHas (hay needle : String) : Bool :=
  hasSub hay.data needle.data

/-- Python `str.strip()`: drop ASCII whitespace from both ends. -/
def pyStrip (s : String) : String :=
  ⟨((s.data.dropWhile Char.isWhitespace).reverse.dropWhile Char.isWhitespace).reverse⟩

/-- Python `str.rstrip()`: drop trailing whitespace. -/
def pyRstrip (s : String) : String :=
  ⟨(s.data.reverse.dropWhile Char.isWhitespace).reverse⟩

/-- Decimal digits to a number; `Option.none` if empty or non-digit
(the failure cases of Python `int(...)` on a base-10 string). -/
def digitsToNat : List Char → Option Nat
  | [] => Option.none
  | cs =>
    if cs.all Char.isDigit then
      Option.some (cs.foldl (fun a c => a * 10 + (c.toNat - 48)) 0)
    else Option.none

/-- Python `int(s)` for a string `s`: surrounding whitespace is ignored, an
optional single sign is allowed, the rest must be nonempty decimal digits. -/
def parseIntStr (s : String) : Option Int :=
  match (pyStrip s).data with
  | '-' :: rest => (digitsToNat rest).map (fun n => -(n : Int))
  | '+' :: rest => (digitsToNat rest).map (fun n => (n : Int))
  | rest => (digitsToNat rest).map (fun n => (n : Int))

/-- Insertion of a string into a sorted list (ascending, Python `sorted`). -/
def insertStr (a : String) : List String → List String
  | [] => [a]
  | b :: bs => if b < a then b :: insertStr a bs else a :: b :: bs

/-- Python `sorted` on a list of strings. -/
def sortStrs : List String → List String
  | [] => []
  | a :: as => insertStr a (sortStrs as)

/-- POSIX `os.path.join` for two components, as used by `charms.py`. -/
def pathJoin (a b : String) : String :=
  if leadsWith b.data ['/'] then b
  else if a.data.isEmpty then b
  else if a.data.getLast? = Option.some '/' then a ++ b
  else a ++ "/" ++ b

/-- POSIX `os.path.basename`: the characters after the last slash. -/
def pyBasename (p : String) : String :=
  ⟨(p.data.reverse.takeWhile (fun c => c ≠ '/')).reverse⟩

/-! ## Python values -/

/-- Python runtime values as produced by `yaml.safe_load` and inspected by
`charms.py`.  The payload of `float` is abstracted to an integer: no code
path in `charms.py` computes with float contents, it only inspects the
runtime type.  Mappings are association lists with string keys (YAML keys in
charm metadata/config are strings). -/
inductive PyVal
  | str (s : String)
  | int (n : Int)
  | float (v : Int)
  | bool (b : Bool)
  | none
  | list (xs : List PyVal)
  | dict (xs : List (String × PyVal))

/-- Lookup in a Python dict (first binding wins, as in a YAML-built dict). -/
def alookup : List (String × PyVal) → String → Option PyVal
  | [], _ => Option.none
  | (k, v) :: rest, key => if k = key then Option.some v else alookup rest key

mutual
/-- Python `==`.  Scalars compare by value, with the numeric cross-type
equalities (`True == 1`); containers compare structurally.  (Python dict
equality is order-insensitive; `charms.py` only ever compares values against
string constants or the directory basename, so container comparison order is
never exercised.) -/
def pyEq : PyVal → PyVal → Bool
  | PyVal.str a, PyVal.str b => a = b
  | PyVal.int a, PyVal.int b => a = b
  | PyVal.bool a, PyVal.bool b => a = b
  | PyVal.bool a, PyVal.int b => (if a then (1 : Int) else 0) = b
  | PyVal.int a, PyVal.bool b => a = (if b then (1 : Int) else 0)
  | PyVal.float a, PyVal.float b => a = b
  | PyVal.float a, PyVal.int b => a = b
  | PyVal.int a, PyVal.float b => a = b
  | PyVal.float a, PyVal.bool b => a = (if b then (1 : Int) else 0)
  | PyVal.bool a, PyVal.float b => (if a then (1 : Int) else 0) = b
  | PyVal.none, PyVal.none => true
  | PyVal.list a, PyVal.list b => pyEqList a b
  | PyVal.dict a, PyVal.dict b => pyEqDict a b
  | _, _ => false

/-- Elementwise Python `==` on lists. -/
def pyEqList : List PyVal → List PyVal → Bool
  | [], [] => true
  | a :: as, b :: bs => pyEq a b && pyEqList as bs
  | _, _ => false

/-- Entrywise Python `==` on dict association lists. -/
def pyEqDict : List (String × PyVal) → List (String × PyVal) → Bool
  | [], [] => true
  | (k, v) :: as, (k2, v2) :: bs => k = k2 && pyEq v v2 && pyEqDict as bs
  | _, _ => false
end

/-- Python truthiness. -/
def pyTruthy : PyVal → Bool
  | PyVal.str s => s ≠ ""
  | PyVal.int n => n ≠ 0
  | PyVal.float v => v ≠ 0
  | PyVal.bool b => b
  | PyVal.none => false
  | PyVal.list xs => !xs.isEmpty
  | PyVal.dict xs => !xs.isEmpty

/-- Python `str(v)` / `"%s" % v` for the values interpolated by `charms.py`.
Container and float textual forms are abstracted (no claim inspects them). -/
def pyStr : PyVal → String
  | PyVal.str s => s
  | PyVal.int n => toString n
  | PyVal.bool b => if b then "True" else "False"
  | PyVal.none => "None"
  | PyVal.float _ => "<float>"
  | PyVal.list _ => "<list>"
  | PyVal.dict _ => "<dict>"

/-- Python `type(v).__name__` (under Python 2, plain strings are `str`). -/
def pyTypeName : PyVal → String
  | PyVal.str _ => "str"
  | PyVal.int _ => "int"
  | PyVal.bool _ => "bool"
  | PyVal.float _ => "float"
  | PyVal.none => "NoneType"
  | PyVal.list _ => "list"
  | PyVal.dict _ => "dict"

/-- Python `len(v)`: defined on strings and containers, `TypeError` else. -/
def pyLen : PyVal → Except PyErr Nat
  | PyVal.str s => Except.ok s.length
  | PyVal.list xs => Except.ok xs.length
  | PyVal.dict xs => Except.ok xs.length
  | _ => Except.error (PyErr.typeError "len")

/-- Python `v[k]` for a string key: dict lookup (`KeyError` when the key is
absent), `TypeError` on any non-dict. -/
def pySubscript : PyVal → String → Except PyErr PyVal
  | PyVal.dict xs, k =>
    match alookup xs k with
    | Option.some v => Except.ok v
    | Option.none => Except.error (PyErr.keyError k)
  | _, _ => Except.error (PyErr.typeError "subscript")

/-- Python `k in v` for a string `k`: key test on dicts, substring test on
strings, membership by `==` on lists, `TypeError` otherwise. -/
def pyInStrKey (k : String) : PyVal → Except PyErr Bool
  | PyVal.dict xs => Except.ok (alookup xs k).isSome
  | PyVal.str s => Except.ok (strHas s k)
  | PyVal.list xs => Except.ok (xs.any (fun v => pyEq v (PyVal.str k)))
  | _ => Except.error (PyErr.typeError "argument not iterable")

/-- Python `int(v)` as used on the metadata `revision` value;
`Option.none` stands for the `TypeError`/`ValueError` outcomes, which the
caller catches together.  `int` of a float truncates; the float payload is
already the abstracted integer. -/
def pyIntConv : PyVal → Option Int
  | PyVal.int n => Option.some n
  | PyVal.bool b => Option.some (if b then 1 else 0)
  | PyVal.float v => Option.some v
  | PyVal.str s => parseIntStr s
  | _ => Option.none

/-- Is the parsed value a Python dict (`isinstance(v, dict)`)? -/
def isMapping : PyVal → Bool
  | PyVal.dict _ => true
  | _ => false

/-! ## Constants of charms.py -/

/-- `KNOWN_METADATA_KEYS` (charms.py lines 15-24). -/
def KNOWN_METADATA_KEYS : List String :=
  ["name", "summary", "maintainer", "description", "categories",
   "subordinate", "provides", "requires", "format", "peers"]

/-- `KNOWN_RELATION_KEYS` (charms.py line 26). -/
def KNOWN_RELATION_KEYS : List String := ["interface", "scope", "limit", "optional"]

/-- `KNOWN_SCOPES` (charms.py line 28). -/
def KNOWN_SCOPES : List String := ["global", "container"]

/-- The key set of `KNOWN_OPTION_TYPES` (charms.py lines 39-44). -/
def KNOWN_OPTION_TYPE_TOKENS : List String := ["string", "int", "float", "boolean"]

/-- `KNOWN_OPTION_KEYS` (charms.py line 37), as a list in construction order. -/
def KNOWN_OPTION_KEYS : List String := ["description", "type", "default"]

/-- Python `isinstance(v, KNOWN_OPTION_TYPES[tok])`.  `basestring` matches
strings; `bool` is a subclass of `int` in Python, so a bool is an instance
of `int`; an int is not an instance of `float` nor of `bool`. -/
def pyIsinst (v : PyVal) (tok : String) : Bool :=
  match tok, v with
  | "string", PyVal.str _ => true
  | "int", PyVal.int _ => true
  | "int", PyVal.bool _ => true
  | "float", PyVal.float _ => true
  | "boolean", PyVal.bool _ => true
  | _, _ => false

/-- `KNOWN_OPTION_TYPES[key]`: the successful lookup returns the type token
itself (the host type it maps to is consumed only through `pyIsinst`);
a missing key is `KeyError`, an unhashable key is `TypeError`. -/
def kotIndex : PyVal → Except PyErr String
  | PyVal.str s =>
    if KNOWN_OPTION_TYPE_TOKENS.contains s then Except.ok s
    else Except.error (PyErr.keyError s)
  | PyVal.list _ => Except.error (PyErr.typeError "unhashable")
  | PyVal.dict _ => Except.error (PyErr.typeError "unhashable")
  | v => Except.error (PyErr.keyError (pyStr v))

/-- Membership test `option_type not in KNOWN_OPTION_TYPES`, negated:
`Except.ok true` when the value is one of the four recognized tokens,
`TypeError` on unhashable values. -/
def knownTypeTok : PyVal → Except PyErr Bool
  | PyVal.str s => Except.ok (KNOWN_OPTION_TYPE_TOKENS.contains s)
  | PyVal.list _ => Except.error (PyErr.typeError "unhashable")
  | PyVal.dict _ => Except.error (PyErr.typeError "unhashable")
  | _ => Except.ok false

/-! ## Exception-threaded linter steps -/

/-- The result of one Python statement sequence: either a value or a raised
exception, together with the linter state at that moment (diagnostics
recorded before a raise survive, as the `CharmLinter` object outlives the
exception). -/
def LRes (α : Type) : Type := Except PyErr α × LinterState

/-- Sequencing that mirrors Python control flow: if the first statement
raised, the rest of the suite is skipped and the exception propagates. -/
def LRes.andThen {α β : Type} (r : LRes α) (f : LinterState → LRes β) : LRes β :=
  match r with
  | (Except.ok _, st) => f st
  | (Except.error e, st) => (Except.error e, st)

/-- Discard the value of a step (used where Python ignores a return value). -/
def LRes.toUnit {α : Type} (r : LRes α) : LRes Unit :=
  match r with
  | (Except.ok _, st) => (Except.ok (), st)
  | (Except.error e, st) => (Except.error e, st)

/-! ## Filesystem model -/

/-- What `os.stat` / `open` observe for one hook file under `hooks/`:
`absent` means `os.stat` raises `OSError`; `present ex lines?` means `stat`
succeeds with owner-execute bit `ex`, and `open` yields the given lines, or
raises `IOError` when `lines?` is `Option.none`. -/
inductive HookFile
  | absent
  | present (ex : Bool) (lines? : Option (List String))
deriving Repr

/-- Hook lookup: a name not listed behaves as `absent`. -/
def hlookup : List (String × HookFile) → String → HookFile
  | [], _ => HookFile.absent
  | (k, v) :: rest, key => if k = key then v else hlookup rest key

/-- The read-only filesystem observations `Charm.proof` makes for one run.
Each field records the outcome of the corresponding system call of
charms.py; `Except.error` carries `(e.filename, e.strerror)` where the code
interpolates them into a message. -/
structure CharmFS where
  /-- The `charm_name` argument (`self.charm_path`). -/
  charmPath : String
  /-- `os.getenv('CHARM_HOME', '.')`. -/
  charmHome : String
  /-- `os.path.isdir(charm_name)`. -/
  isdirInput : Bool
  /-- `os.path.isdir(os.path.join(charm_home, charm_name))`. -/
  isdirResolved : Bool
  /-- Opening and parsing `metadata.yaml`: `Option.none` when `open` raises
  `IOError`; `Except.error msg` when `yaml.safe_load` raises with text
  `msg`; `Except.ok v` when it parses to `v`. -/
  metadata : Option (Except String PyVal)
  /-- Stat/open outcomes for files under `hooks/`, keyed by hook name. -/
  hooks : List (String × HookFile)
  /-- `os.path.exists(icon.svg)`. -/
  iconExists : Bool
  /-- Reading the template icon and the charm icon: `Except.ok b` where `b`
  says whether the two SHA-1 digests are equal, `Except.error` an `IOError`
  with `(filename, strerror)`. -/
  iconRead : Except (String × String) Bool
  /-- `os.path.exists(hooks/)`. -/
  hooksDirExists : Bool
  /-- `os.path.exists(copyright)`. -/
  copyrightExists : Bool
  /-- `os.listdir(charm_path)`. -/
  rootFiles : List String
  /-- Reading the bundled `README.ex` template: its lines (with trailing
  newlines, as Python file iteration yields them), or an `IOError`. -/
  templateReadme : Except (String × String) (List String)
  /-- Reading each candidate README file: full content or an `IOError`.
  A filename missing from this list behaves as an `IOError`. -/
  readmeRead : List (String × Except (String × String) String)
  /-- `os.path.exists(tests/00-autogen)`. -/
  autogenExists : Bool
  /-- The `revision` file: `Option.none` when absent; `Option.some
  Option.none` when it exists but `open` raises `IOError` (uncaught);
  otherwise its content. -/
  revisionFile : Option (Option String)
  /-- `config.yaml`: `Option.none` when `os.path.isfile` is false;
  `Except.error msg` when loading raises an exception with text `msg`
  (caught by the blanket `except Exception`); `Except.ok v` on success. -/
  config : Option (Except String PyVal)

/-- `charm_path` after the resolution at the top of `proof` (lines 206-211). -/
def resolvedPath (fs : CharmFS) : String :=
  if fs.isdirInput then fs.charmPath else pathJoin fs.charmHome fs.charmPath

/-- `os.path.isdir(charm_path)` for the resolved path (line 213). -/
def proofDirOk (fs : CharmFS) : Bool :=
  if fs.isdirInput then true else fs.isdirResolved

/-- `yaml_path` (line 218). -/
def yamlPath (fs : CharmFS) : String :=
  pathJoin (resolvedPath fs) "metadata.yaml"

/-! ## CharmLinter.check_hook (lines 52-78) -/

/-- The per-line scan for the EC2 metadata endpoint (lines 60-70).
`count` is the running line number. -/
def scanHookLines (hook : String) : List String → Nat → LinterState → LinterState
  | [], _, st => st
  | l :: rest, count, st =>
    let count := count + 1
    let st :=
      if strHas l "http://169.254.169.254/" then
        st.warn ("(" ++ hook ++ ":" ++ toString count ++
          ") - hook accesses EC2 metadata service directly")
      else st
    scanHookLines hook rest count st

/-- `CharmLinter.check_hook`: stat the hook, warn when not executable, scan
its lines, return whether it exists.  Only `OSError` (a failed `stat`) is
caught; an `IOError` from `open` propagates to the caller. -/
def check_hook (hook : String) (hooks : List (String × HookFile))
    (required recommended : Bool) (st : LinterState) : LRes Bool :=
  match hlookup hooks hook with
  | HookFile.absent =>
    if required then (Except.ok false, st.err ("missing hook " ++ hook))
    else if recommended then
      (Except.ok false, st.warn ("missing recommended hook " ++ hook))
    else (Except.ok false, st)
  | HookFile.present ex lines? =>
    let st := if ex then st else st.warn (hook ++ " not executable")
    match lines? with
    | Option.none => (Except.error PyErr.ioError, st)
    | Option.some lines => (Except.ok true, scanHookLines hook lines 0 st)

/-! ## CharmLinter.check_relation_hooks (lines 80-123) -/

/-- The per-entry field checks of `check_relation_hooks` (lines 85-104):
not-a-map, scope, interface (note `template_interfaces` is the plain string
`'interface-name'`, so `interface in template_interfaces` is a substring
test, raising `TypeError` when the interface is not a string), and unknown
relation fields. -/
def relFieldChecks (rname : String) (rval : PyVal) (st : LinterState) : LRes Unit :=
  match rval with
  | PyVal.dict rkvs =>
    let st :=
      match alookup rkvs "scope" with
      | Option.some scope =>
        if KNOWN_SCOPES.any (fun s => pyEq scope (PyVal.str s)) then st
        else st.err ("Unknown scope found in relation " ++ rname ++ " - (" ++ pyStr scope ++ ")")
      | Option.none => st
    let keysStep := fun (st : LinterState) =>
      rkvs.foldl
        (fun s kv =>
          if KNOWN_RELATION_KEYS.contains kv.1 then s
          else s.err ("Unknown relation field in relation " ++ rname ++ " - (" ++ kv.1 ++ ")"))
        st
    match alookup rkvs "interface" with
    | Option.some (PyVal.str s) =>
      let st :=
        if strHas "interface-name" s then
          st.err ("template interface names should be changed: " ++ s)
        else st
      (Except.ok (), keysStep st)
    | Option.some _ => (Except.error (PyErr.typeError "argument not iterable"), st)
    | Option.none => (Except.ok (), keysStep (st.err "relation missing interface"))
  | _ => (Except.ok (), st.err ("relation " ++ rname ++ " is not a map"))

/-- The `has_one` chain (lines 112-120).  Python's `or` short-circuits, so
later hooks are not checked once one exists. -/
def relHookChain (rname : String) (hooks : List (String × HookFile))
    (st : LinterState) : LRes Bool :=
  match check_hook (rname ++ "-relation-changed") hooks false false st with
  | (Except.error e, st) => (Except.error e, st)
  | (Except.ok h1, st) =>
    if h1 then (Except.ok true, st)
    else
      match check_hook (rname ++ "-relation-departed") hooks false false st with
      | (Except.error e, st) => (Except.error e, st)
      | (Except.ok h2, st) =>
        if h2 then (Except.ok true, st)
        else
          match check_hook (rname ++ "-relation-joined") hooks false false st with
          | (Except.error e, st) => (Except.error e, st)
          | (Except.ok h3, st) =>
            if h3 then (Except.ok true, st)
            else check_hook (rname ++ "-relation-broken") hooks false false st

/-- One iteration of the loop over `relations.items()` (lines 84-123).
`template_relations` is the plain string `'relation-name'`, so the relation
name test is a substring test too. -/
def relEntry (rname : String) (rval : PyVal) (hooks : List (String × HookFile))
    (subordinate : PyVal) (st : LinterState) : LRes Unit :=
  LRes.andThen (relFieldChecks rname rval st) (fun st =>
    let st :=
      if strHas "relation-name" rname then
        st.err ("template relations should be renamed to fit charm: " ++ rname)
      else st
    match relHookChain rname hooks st with
    | (Except.error e, st) => (Except.error e, st)
    | (Except.ok hasOne, st) =>
      (Except.ok (),
       if !hasOne && !pyTruthy subordinate then
         st.info ("relation " ++ rname ++ " has no hooks")
       else st))

/-- The loop over all relation entries. -/
def relLoop (subordinate : PyVal) (hooks : List (String × HookFile)) :
    List (String × PyVal) → LinterState → LRes Unit
  | [], st => (Except.ok (), st)
  | (rname, rval) :: rest, st =>
    LRes.andThen (relEntry rname rval hooks subordinate st) (fun st =>
      relLoop subordinate hooks rest st)

/-- `CharmLinter.check_relation_hooks`: `relations.items()` raises
`AttributeError` on a non-dict. -/
def check_relation_hooks (relations : PyVal) (subordinate : PyVal)
    (hooks : List (String × HookFile)) (st : LinterState) : LRes Unit :=
  match relations with
  | PyVal.dict rs => relLoop subordinate hooks rs st
  | _ => (Except.error (PyErr.attributeError "items"), st)

/-! ## CharmLinter.check_config_file (lines 125-192) -/

/-- Python `repr` of a list of strings, as `'%s' % wrong_keys` prints it. -/
def reprStrList (ks : List String) : String :=
  "[" ++ String.intercalate ", " (ks.map (fun k => "'" ++ k ++ "'")) ++ "]"

/-- `set(option_value)`: the option's keys with duplicates removed
(first occurrence kept; a YAML-built dict has no duplicates anyway). -/
def dedupKeys : List String → List String
  | [] => []
  | k :: rest => k :: ((dedupKeys rest).filter (fun x => x ≠ k))

/-- The per-option body of the loop in `check_config_file` (lines 153-192),
for an option value that is a dict. -/
def optionCheck (name : String) (okvs : List (String × PyVal))
    (st : LinterState) : LRes Unit :=
  let existing := dedupKeys (okvs.map Prod.fst)
  let missing := KNOWN_OPTION_KEYS.filter (fun k => !existing.contains k)
  let st :=
    if missing.isEmpty then st
    else st.warn ("config.yaml: option " ++ name ++ " does not have the keys: " ++
      String.intercalate ", " (sortStrs missing))
  let invalid := existing.filter (fun k => !KNOWN_OPTION_KEYS.contains k)
  let st :=
    if invalid.isEmpty then st
    else st.warn ("config.yaml: option " ++ name ++ " has unknown keys: " ++
      String.intercalate ", " (sortStrs invalid))
  let st :=
    match alookup okvs "description" with
    | Option.some (PyVal.str _) => st
    | Option.some _ =>
      st.warn ("config.yaml: description of option " ++ name ++ " should be a string")
    | Option.none => st
  let otype : PyVal := (alookup okvs "type").getD (PyVal.str "string")
  match knownTypeTok otype with
  | Except.error e => (Except.error e, st)
  | Except.ok false =>
    (Except.ok (),
     st.warn ("config.yaml: option " ++ name ++ " has an invalid type (" ++ pyStr otype ++ ")"))
  | Except.ok true =>
    match alookup okvs "default" with
    | Option.none => (Except.ok (), st)
    | Option.some dv =>
      match pySubscript (PyVal.dict okvs) "type" with
      | Except.error e => (Except.error e, st)
      | Except.ok tv =>
        match kotIndex tv with
        | Except.error e => (Except.error e, st)
        | Except.ok tok =>
          if pyIsinst dv tok then (Except.ok (), st)
          else
            (Except.ok (),
             st.err ("config.yaml: type of option " ++ name ++ " is specified as " ++
               pyStr tv ++ ", but the type of the default value is " ++ pyTypeName dv))

/-- The loop over `options.items()`; a non-dict option value is an `err`
and `continue`. -/
def optionsLoop : List (String × PyVal) → LinterState → LRes Unit
  | [], st => (Except.ok (), st)
  | (n, v) :: rest, st =>
    match v with
    | PyVal.dict okvs =>
      LRes.andThen (optionCheck n okvs st) (fun st => optionsLoop rest st)
    | _ => optionsLoop rest (st.err ("config.yaml: data for option " ++ n ++ " is not a dict"))

/-- `CharmLinter.check_config_file`, driven by the `config` observation of
the filesystem (presence, parse outcome, parsed value). -/
def check_config_file (cfg : Option (Except String PyVal))
    (st : LinterState) : LRes Unit :=
  match cfg with
  | Option.none => (Except.ok (), st.warn "File config.yaml not found.")
  | Option.some (Except.error emsg) =>
    (Except.ok (), st.err ("Cannot parse config.yaml: " ++ emsg))
  | Option.some (Except.ok config) =>
    match config with
    | PyVal.dict ckvs =>
      match alookup ckvs "options" with
      | Option.none =>
        (Except.ok (), st.err "config.yaml must have an \"options\" key.")
      | Option.some ov =>
        let st :=
          if 1 < ckvs.length then
            st.warn ("Ignored keys in config.yaml: " ++
              reprStrList ((sortStrs (ckvs.map Prod.fst)).erase "options"))
          else st
        match ov with
        | PyVal.dict opts => optionsLoop opts st
        | _ =>
          (Except.ok (), st.err "config.yaml: options section is not parsed as a dictionary")
    | _ => (Except.ok (), st.err "config.yaml not parsed into a dictionary.")

/-! ## Charm.proof metadata checks (lines 229-272) -/

/-- The loop over `charm.keys()` (lines 229-231). -/
def checkMetaKeys (kvs : List (String × PyVal)) (st : LinterState) : LinterState :=
  kvs.foldl
    (fun s kv =>
      if KNOWN_METADATA_KEYS.contains kv.1 then s
      else s.err ("Unknown root metadata field (" ++ kv.1 ++ ")"))
    st

/-- `charm['name'] != charm_basename` (lines 233-238); `KeyError` when the
manifest has no `name`. -/
def checkName (basn : String) (kvs : List (String × PyVal))
    (st : LinterState) : LRes Unit :=
  match alookup kvs "name" with
  | Option.none => (Except.error (PyErr.keyError "name"), st)
  | Option.some nm =>
    (Except.ok (),
     if pyEq nm (PyVal.str basn) then st
     else
       st.warn ("metadata name (" ++ pyStr nm ++ ") must match directory name (" ++
         basn ++ ") exactly for local deployment."))

/-- `len(charm['summary']) > 72` (lines 240-242); `KeyError` when absent,
`TypeError` when the summary has no length. -/
def checkSummary (kvs : List (String × PyVal)) (st : LinterState) : LRes Unit :=
  match alookup kvs "summary" with
  | Option.none => (Except.error (PyErr.keyError "summary"), st)
  | Option.some sv =>
    match pyLen sv with
    | Except.error e => (Except.error e, st)
    | Except.ok n =>
      (Except.ok (), if 72 < n then st.warn "summary sould be less than 72" else st)

/-- The loop over the maintainer entries (lines 253-260).  The round trip
`email.utils.formataddr(email.utils.parseaddr(m))` is the standard-library
function `rt` supplied to `proof`; a non-string entry makes `parseaddr`
raise `TypeError`. -/
def maintainerLoop (rt : String → String) :
    List PyVal → LinterState → LRes Unit
  | [], st => (Except.ok (), st)
  | m :: rest, st =>
    match m with
    | PyVal.str ms =>
      let f := rt ms
      let st :=
        if f = ms then st
        else st.warn ("Maintainer address should contain a real-name and email only. [" ++ f ++ "]")
      maintainerLoop rt rest st
    | _ => (Except.error (PyErr.typeError "parseaddr"), st)

/-- The maintainer check (lines 244-260): required field, and each entry
(single value, or each element when the value is exactly a list) must
round-trip through the formatter unchanged. -/
def checkMaintainer (rt : String → String) (kvs : List (String × PyVal))
    (st : LinterState) : LRes Unit :=
  match alookup kvs "maintainer" with
  | Option.none =>
    (Except.ok (), st.err "Charms need a maintainer (See RFC2822) - Name <email>")
  | Option.some mv =>
    match mv with
    | PyVal.list xs => maintainerLoop rt xs st
    | v => maintainerLoop rt [v] st

/-- The categories check (lines 262-272). -/
def checkCategories (kvs : List (String × PyVal)) (st : LinterState) : LinterState :=
  match alookup kvs "categories" with
  | Option.none => st.warn "Metadata is missing categories."
  | Option.some c =>
    match c with
    | PyVal.list xs =>
      if xs.isEmpty then
        st.warn ("Categories metadata must be a list of one or more of: applications, " ++
          "app-servers, databases, file-servers, cache-proxy, misc")
      else st
    | _ =>
      st.warn ("Categories metadata must be a list of one or more of: applications, " ++
        "app-servers, databases, file-servers, cache-proxy, misc")

/-- The icon check (lines 274-290): warn when `icon.svg` is missing,
`err` when its digest equals the bundled template's, and an `IOError`
while reading either file is caught locally and reported as `err`. -/
def checkIcon (fs : CharmFS) (st : LinterState) : LinterState :=
  if !fs.iconExists then st.warn "No icon.svg file."
  else
    match fs.iconRead with
    | Except.ok same => if same then st.err "Includes template icon.svg file." else st
    | Except.error (fn, se) => st.err ("Error while opening " ++ fn ++ " (" ++ se ++ ")")

/-! ## README boilerplate detection (lines 300-333) -/

/-- `bad_lines` (lines 311-314): the template lines of raw length at least
40 (the trailing newline counts), each stripped. -/
def badLines (tpl : List String) : List String :=
  (tpl.filter (fun l => 40 ≤ l.length)).map pyStrip

/-- The inner loop over `bad_lines` for one README (lines 319-327): empty
stripped lines are skipped without incrementing the counter `lc`; a line
contained in the README content is reported with the current `lc`. -/
def boilerLoop (readme content : String) :
    List String → Nat → LinterState → LinterState
  | [], _, st => st
  | l :: rest, lc, st =>
    if l.length = 0 then boilerLoop readme content rest lc st
    else
      let lc := lc + 1
      let st :=
        if strHas content l then
          st.err (readme ++ " Includes boilerplate README.ex line " ++ toString lc)
        else st
      boilerLoop readme content rest lc st

/-- The loop over the found READMEs (lines 315-327); an `IOError` opening a
README aborts the block and is reported (lines 328-331). -/
def readmesLoop (bad : List String)
    (reads : List (String × Except (String × String) String)) :
    List String → LinterState → LinterState
  | [], st => st
  | r :: rest, st =>
    match (reads.lookup r).getD (Except.error (r, "No such file or directory")) with
    | Except.ok content => readmesLoop bad reads rest (boilerLoop r content bad 0 st)
    | Except.error (fn, se) => st.err ("Error while opening " ++ fn ++ " (" ++ se ++ ")")

/-- Python `str.upper()` for ASCII names. -/
def strUpper (s : String) : String := ⟨s.data.map Char.toUpper⟩

/-- `found_readmes` (lines 301-305): every root file whose uppercased name
contains `README`. -/
def foundReadmes (fs : CharmFS) : List String :=
  fs.rootFiles.filter (fun f => strHas (strUpper f) "README")

/-- The README checks (lines 300-333). -/
def checkReadmes (fs : CharmFS) (st : LinterState) : LinterState :=
  let frs := foundReadmes fs
  if frs.isEmpty then st.warn "no README file"
  else
    let st :=
      if frs.contains "README.ex" then st.err "Includes template README.ex file" else st
    match fs.templateReadme with
    | Except.error (fn, se) => st.err ("Error while opening " ++ fn ++ " (" ++ se ++ ")")
    | Except.ok tpl => readmesLoop (badLines tpl) fs.readmeRead frs st

/-! ## Relations and revision inside Charm.proof (lines 335-390) -/

/-- `charm.get(k)` with the `is not None` test applied by the relation
blocks: a stored YAML null behaves like an absent key. -/
def getNonNone (kvs : List (String × PyVal)) (k : String) : Option PyVal :=
  match alookup kvs k with
  | Option.some PyVal.none => Option.none
  | x => x

/-- The `provides` block (lines 339-345). -/
def checkProvides (subordinate : PyVal) (hooks : List (String × HookFile))
    (kvs : List (String × PyVal)) (st : LinterState) : LRes Unit :=
  match getNonNone kvs "provides" with
  | Option.some p => check_relation_hooks p subordinate hooks st
  | Option.none =>
    (Except.ok (),
     if pyTruthy subordinate then st
     else st.warn "all charms should provide at least one thing")

/-- The search loop of lines 352-356: scan `requires.iteritems()` for a
relation whose `scope` value equals `'container'`, stopping at the first
hit.  A non-dict entry makes `'scope' in rel` or `rel['scope']` raise. -/
def findScopeContainer : List (String × PyVal) → Except PyErr Bool
  | [] => Except.ok false
  | (_, rel) :: rest =>
    match pyInStrKey "scope" rel with
    | Except.error e => Except.error e
    | Except.ok true =>
      match pySubscript rel "scope" with
      | Except.error e => Except.error e
      | Except.ok sc =>
        if pyEq sc (PyVal.str "container") then Except.ok true
        else findScopeContainer rest
    | Except.ok false => findScopeContainer rest

/-- The subordinate `requires` rule (lines 347-363): the sentinel
`RelationError` (raised when `requires` is missing or holds no
container-scoped relation) is caught and turned into a single `err`; any
other exception propagates. -/
def subRequiresCheck (kvs : List (String × PyVal)) (st : LinterState) : LRes Unit :=
  match getNonNone kvs "requires" with
  | Option.none =>
    (Except.ok (), st.err "subordinates must have at least one scope: container relation")
  | Option.some rq =>
    match rq with
    | PyVal.dict rs =>
      match findScopeContainer rs with
      | Except.error e => (Except.error e, st)
      | Except.ok true => (Except.ok (), st)
      | Except.ok false =>
        (Except.ok (), st.err "subordinates must have at least one scope: container relation")
    | _ => (Except.error (PyErr.attributeError "iteritems"), st)

/-- The `requires` block (lines 347-368): subordinate charms get the
container-scope rule, others get relation-hook checking. -/
def checkRequires (subordinate : PyVal) (hooks : List (String × HookFile))
    (kvs : List (String × PyVal)) (st : LinterState) : LRes Unit :=
  if pyTruthy subordinate then subRequiresCheck kvs st
  else
    match getNonNone kvs "requires" with
    | Option.some rq => check_relation_hooks rq subordinate hooks st
    | Option.none => (Except.ok (), st)

/-- The `peers` block (lines 370-372). -/
def checkPeers (subordinate : PyVal) (hooks : List (String × HookFile))
    (kvs : List (String × PyVal)) (st : LinterState) : LRes Unit :=
  match getNonNone kvs "peers" with
  | Option.some p => check_relation_hooks p subordinate hooks st
  | Option.none => (Except.ok (), st)

/-- The deprecated in-manifest `revision` check (lines 374-383):
present at all (even as null) triggers the relocation warning; a value
that does not convert to a non-negative integer adds a second warning. -/
def checkRevisionMeta (kvs : List (String × PyVal)) (st : LinterState) : LinterState :=
  match alookup kvs "revision" with
  | Option.none => st
  | Option.some rv =>
    let st :=
      st.warn "Revision should not be stored in metadata.yaml anymore. Move it to the revision file"
    match pyIntConv rv with
    | Option.some x => if x < 0 then st.warn "revision should be a positive integer" else st
    | Option.none => st.warn "revision should be a positive integer"

/-! ## Charm.proof (lines 204-409) -/

/-- The body of the big `try` block (lines 220-390) once `metadata.yaml`
has been opened and parsed to `charm`.  `charm.keys()` raises
`AttributeError` when the parse result is not a mapping. -/
def mainBody (rt : String → String) (fs : CharmFS) (charm : PyVal)
    (st : LinterState) : LRes Unit :=
  match charm with
  | PyVal.dict kvs =>
    let st := checkMetaKeys kvs st
    LRes.andThen (checkName (pyBasename (resolvedPath fs)) kvs st) (fun st =>
    LRes.andThen (checkSummary kvs st) (fun st =>
    LRes.andThen (checkMaintainer rt kvs st) (fun st =>
      let st := checkCategories kvs st
      let st := checkIcon fs st
      let st := if fs.hooksDirExists then st else st.err "no hooks directory"
      let st := if fs.copyrightExists then st else st.err "no copyright file"
      let st := checkReadmes fs st
      let subordinate : PyVal := (alookup kvs "subordinate").getD (PyVal.bool false)
      let st :=
        match subordinate with
        | PyVal.bool _ => st
        | _ => st.err "subordinate must be a boolean value"
      LRes.andThen (checkProvides subordinate fs.hooks kvs st) (fun st =>
      LRes.andThen (checkRequires subordinate fs.hooks kvs st) (fun st =>
      LRes.andThen (checkPeers subordinate fs.hooks kvs st) (fun st =>
        let st := checkRevisionMeta kvs st
        LRes.andThen (LRes.toUnit (check_hook "install" fs.hooks true false st)) (fun st =>
        LRes.andThen (LRes.toUnit (check_hook "start" fs.hooks false true st)) (fun st =>
        LRes.andThen (LRes.toUnit (check_hook "stop" fs.hooks false true st)) (fun st =>
          LRes.toUnit (check_hook "config-changed" fs.hooks false false st))))))))))
  | _ => (Except.error (PyErr.attributeError "keys"), st)

/-- The `except IOError` handler (lines 391-393). -/
def ioHandler (fs : CharmFS) (st : LinterState) : LinterState :=
  let st := st.err ("could not find metadata file for " ++ fs.charmPath)
  { st with exit_code := -1 }

/-- The checks after the `try` statement (lines 395-409): autogenerated
test scaffold, `revision` file (whose `open` is unprotected, so an
`IOError` there escapes `proof` entirely), and the config schema. -/
def afterTry (fs : CharmFS) (st : LinterState) : Except PyErr (List Diag × Int) :=
  let st := if fs.autogenExists then st.warn "has templated 00-autogen test file" else st
  match fs.revisionFile with
  | Option.some Option.none => Except.error PyErr.ioError
  | Option.some (Option.some content) =>
    let st :=
      match parseIntStr (pyRstrip content) with
      | Option.some _ => st
      | Option.none => st.err "revision file contains non-numeric data"
    match check_config_file fs.config st with
    | (Except.ok _, st) => Except.ok (st.lint, st.exit_code)
    | (Except.error e, _) => Except.error e
  | Option.none =>
    match check_config_file fs.config st with
    | (Except.ok _, st) => Except.ok (st.lint, st.exit_code)
    | (Except.error e, _) => Except.error e

/-- `Charm.proof` (lines 204-409).  `rt` is the maintainer round-trip
formatter from the standard library.  The returned value is the
`(lint, exit_code)` pair, or the Python exception that escaped `proof`. -/
def Charm.proof (rt : String → String) (fs : CharmFS) :
    Except PyErr (List Diag × Int) :=
  let st := LinterState.initial
  if proofDirOk fs then
    match fs.metadata with
    | Option.none => afterTry fs (ioHandler fs st)
    | Option.some (Except.error emsg) =>
      let st := st.crit ("cannot parse " ++ yamlPath fs ++ ":" ++ emsg)
      Except.ok (st.lint, st.exit_code)
    | Option.some (Except.ok charm) =>
      match mainBody rt fs charm st with
      | (Except.ok _, st1) => afterTry fs st1
      | (Except.error PyErr.ioError, st1) => afterTry fs (ioHandler fs st1)
      | (Except.error e, _) => Except.error e
  else
    let st := st.crit (resolvedPath fs ++ " is not a directory, Aborting")
    Except.ok (st.lint, st.exit_code)

/-- Two consecutive `proof` runs over the same unchanged filesystem
snapshot.  The source constructs a fresh `CharmLinter()` at line 205 on
every call, so each run starts from `LinterState.initial`. -/
def proofTwice (rt : String → String) (fs : CharmFS) :
    Except PyErr (List Diag × Int) × Except PyErr (List Diag × Int) :=
  (Charm.proof rt fs, Charm.proof rt fs)

/-- The diagnostics of a completed run (an escaped exception has none). -/
def diagsOf (r : Except PyErr (List Diag × Int)) : List Diag :=
  match r with
  | Except.ok (l, _) => l
  | Except.error _ => []

/-- Occurrences of one diagnostic in a list. -/
def countDiag (d : Diag) (l : List Diag) : Nat :=
  (l.filter (fun x => x = d)).length

/-! ## Concrete charm snapshots and spec-side definitions used by the
claim theorems -/

/-- A `config.yaml` whose single option carries a `default` but no `type`. -/
def cfgC1 : Option (Except String PyVal) :=
  Option.some (Except.ok (PyVal.dict [("options", PyVal.dict
    [("opt", PyVal.dict [("description", PyVal.str "d"), ("default", PyVal.str "x")])])]))

/-- A charm whose `metadata.yaml` exists but fails to parse, and which is
missing the hooks directory, the copyright file and `config.yaml`, and has
the autogenerated test file: every filesystem-only check would fire. -/
def fsC2 : CharmFS :=
  { charmPath := "c", charmHome := ".", isdirInput := true, isdirResolved := true,
    metadata := Option.some (Except.error "boom"),
    hooks := [], iconExists := false, iconRead := Except.ok false,
    hooksDirExists := false, copyrightExists := false, rootFiles := [],
    templateReadme := Except.ok [], readmeRead := [], autogenExists := true,
    revisionFile := Option.none, config := Option.none }

/-- A charm whose `metadata.yaml` parses to a YAML sequence (valid YAML,
not a mapping). -/
def fsC3 : CharmFS :=
  { fsC2 with metadata := Option.some (Except.ok (PyVal.list [])) }

/-- A charm whose `metadata.yaml` parses to a mapping without a `name`. -/
def fsC3b : CharmFS :=
  { fsC2 with metadata := Option.some (Except.ok (PyVal.dict [("summary", PyVal.str "s")])) }

/-- A `config.yaml` declaring `type: int` with the boolean default `true`. -/
def cfgC4 : Option (Except String PyVal) :=
  Option.some (Except.ok (PyVal.dict [("options", PyVal.dict
    [("o", PyVal.dict [("description", PyVal.str "d"), ("type", PyVal.str "int"),
      ("default", PyVal.bool true)])])]))

/-- A one-option `config.yaml` with `description`, a declared `type` token
and a `default` value. -/
def cfgOneOption (nm t : String) (d : PyVal) : Option (Except String PyVal) :=
  Option.some (Except.ok (PyVal.dict [("options", PyVal.dict
    [(nm, PyVal.dict [("description", PyVal.str "d"), ("type", PyVal.str t),
      ("default", d)])])]))

/-- An otherwise valid charm whose manifest carries `revision: 1`. -/
def fsC5 : CharmFS :=
  { charmPath := "mycharm", charmHome := ".", isdirInput := true, isdirResolved := true,
    metadata := Option.some (Except.ok (PyVal.dict
      [("name", PyVal.str "mycharm"), ("summary", PyVal.str "good charm"),
       ("maintainer", PyVal.str "A B <ab@c.d>"), ("revision", PyVal.int 1)])),
    hooks := [], iconExists := false, iconRead := Except.ok false,
    hooksDirExists := true, copyrightExists := true, rootFiles := [],
    templateReadme := Except.ok [], readmeRead := [], autogenExists := false,
    revisionFile := Option.none, config := Option.none }

/-- Relations whose interface (`face`) and name (`name`) are proper
substrings of the reserved placeholders, but equal to neither. -/
def relsC6 : PyVal := PyVal.dict
  [("foo", PyVal.dict [("interface", PyVal.str "face")]),
   ("name", PyVal.dict [("interface", PyVal.str "mysql")])]

/-- A template whose first line is short and whose second line is long
(44 characters plus the newline). -/
def tplC7 : List String :=
  ["short line\n", "AAAAAAAAAAAAAAAAAAAAAAAAAAAAAAAAAAAAAAAAAAAA\n"]

/-- A charm whose README contains the long second template line verbatim. -/
def fsC7 : CharmFS :=
  { charmPath := "c7", charmHome := ".", isdirInput := true, isdirResolved := true,
    metadata := Option.some (Except.ok (PyVal.dict [])),
    hooks := [], iconExists := false, iconRead := Except.ok false,
    hooksDirExists := true, copyrightExists := true, rootFiles := ["README"],
    templateReadme := Except.ok tplC7,
    readmeRead := [("README",
      Except.ok "xx AAAAAAAAAAAAAAAAAAAAAAAAAAAAAAAAAAAAAAAAAAAA yy")],
    autogenExists := false, revisionFile := Option.none, config := Option.none }

/-- Spec-side description of the reported lines: the template lines of raw
length at least 40 that are non-blank once stripped (spec 4.3:
"every non-trivial line (minimum length threshold, default 40 characters)
from the reference template"). -/
def nontrivialTplLines (tpl : List String) : List String :=
  ((tpl.filter (fun l => 40 ≤ l.length)).map pyStrip).filter (fun l => l.length ≠ 0)

/-- A subordinate charm whose `requires` block is absent (`Option.none`) or
holds exactly the given relation map (`Option.some rs`). -/
def fsC8 (rq : Option (List (String × PyVal))) : CharmFS :=
  { charmPath := "sub", charmHome := ".", isdirInput := true, isdirResolved := true,
    metadata := Option.some (Except.ok (PyVal.dict
      ([("name", PyVal.str "sub"), ("summary", PyVal.str "s"),
        ("maintainer", PyVal.str "M <m@e.x>"), ("subordinate", PyVal.bool true)] ++
       (match rq with
        | Option.some rs => [("requires", PyVal.dict rs)]
        | Option.none => [])))),
    hooks := [], iconExists := false, iconRead := Except.ok false,
    hooksDirExists := true, copyrightExists := true, rootFiles := [],
    templateReadme := Except.ok [], readmeRead := [], autogenExists := false,
    revisionFile := Option.none, config := Option.none }

/-- Spec-side test: does this relation entry carry `scope: container`? -/
def hasContainerScope (p : String × PyVal) : Bool :=
  match p.2 with
  | PyVal.dict kvs =>
    match alookup kvs "scope" with
    | Option.some v => pyEq v (PyVal.str "container")
    | Option.none => false
  | _ => false

/-- Spec-side test for the whole `requires` block: it is present and at
least one of its relations carries `scope: container` (an absent block
never does). -/
def requiresHasContainer : Option (List (String × PyVal)) → Bool
  | Option.none => false
  | Option.some rs => rs.any hasContainerScope

/-- A well-formed charm whose `install` hook exists and is executable
according to `e`, but whose `open` raises `IOError`; `a` controls the
presence of the autogenerated test file checked after the handler. -/
def fsC10 (nm : String) (e a : Bool) : CharmFS :=
  { charmPath := nm, charmHome := ".", isdirInput := true, isdirResolved := true,
    metadata := Option.some (Except.ok (PyVal.dict
      [("name", PyVal.str "mycharm"), ("summary", PyVal.str "s"),
       ("maintainer", PyVal.str "M <m@e.x>")])),
    hooks := [("install", HookFile.present e Option.none)],
    iconExists := false, iconRead := Except.ok false,
    hooksDirExists := true, copyrightExists := true, rootFiles := [],
    templateReadme := Except.ok [], readmeRead := [], autogenExists := a,
    revisionFile := Option.none, config := Option.none }

/-! ## Helper lemmas -/

@[simp]
theorem LRes.andThen_ok {α β : Type} (a : α) (st : LinterState)
    (f : LinterState → LRes β) :
    LRes.andThen (Except.ok a, st) f = f st := rfl

@[simp]
theorem LRes.andThen_error {α β : Type} (e : PyErr) (st : LinterState)
    (f : LinterState → LRes β) :
    LRes.andThen (α := α) (Except.error e, st) f = (Except.error e, st) := rfl

@[simp]
theorem LRes.toUnit_ok {α : Type} (a : α) (st : LinterState) :
    LRes.toUnit (Except.ok a, st) = (Except.ok (), st) := rfl

@[simp]
theorem LRes.toUnit_error {α : Type} (e : PyErr) (st : LinterState) :
    LRes.toUnit (α := α) (Except.error e, st) = (Except.error e, st) := rfl

/-! ## Claim C1 -/

/-- Claim C1: the spec says an option with a `default` but no `type` is
checked against the effective type "string" and validation completes
normally.  The code instead evaluates `KNOWN_OPTION_TYPES[option_value['type']]`
(line 182) with the raw key lookup, so the absent `type` key raises
`KeyError` out of `check_config_file` after only the missing-keys warning
has been recorded: the code, not the spec, is wrong here, since the
effective type was already computed as `option_value.get('type', 'string')`
on line 177. -/
theorem C1_default_without_type_raises_keyerror :
    check_config_file cfgC1 LinterState.initial =
      (Except.error (PyErr.keyError "type"),
       ⟨[⟨Severity.warn, "config.yaml: option opt does not have the keys: type"⟩], 0⟩) := rfl

/-! ## Claim C5 -/

/-- Claim C5: the spec treats `revision` as a recognized (if deprecated)
manifest field yielding only warnings, but `revision` is absent from
`KNOWN_METADATA_KEYS` (lines 15-24), so the key loop at lines 229-231
reports it as an err-level "Unknown root metadata field (revision)" even
though the code itself handles the field as known-but-deprecated at lines
374-383 (warn only).  Full evaluation of `proof` on an otherwise valid
manifest carrying `revision: 1`. -/
theorem C5_revision_reported_as_unknown_field :
    Charm.proof id fsC5 = Except.ok
      ([⟨Severity.err, "Unknown root metadata field (revision)"⟩,
        ⟨Severity.warn, "Metadata is missing categories."⟩,
        ⟨Severity.warn, "No icon.svg file."⟩,
        ⟨Severity.warn, "no README file"⟩,
        ⟨Severity.warn, "all charms should provide at least one thing"⟩,
        ⟨Severity.warn,
          "Revision should not be stored in metadata.yaml anymore. Move it to the revision file"⟩,
        ⟨Severity.err, "missing hook install"⟩,
        ⟨Severity.warn, "missing recommended hook start"⟩,
        ⟨Severity.warn, "missing recommended hook stop"⟩,
        ⟨Severity.warn, "File config.yaml not found."⟩], 1) := rfl

/-! ## Claim C6 -/

/-- Claim C6: the spec requires the template-name errs exactly on equality
with the placeholders, but `template_interfaces = ('interface-name')` and
`template_relations = ('relation-name')` (lines 81-82) are plain strings,
not tuples, so `in` performs substring containment: the interface `face`
(a proper substring of `interface-name`) and the relation name `name`
(a proper substring of `relation-name`) are both reported although neither
equals its placeholder. -/
theorem C6_substring_template_names :
    check_relation_hooks relsC6 (PyVal.bool false) [] LinterState.initial =
      (Except.ok (),
       ⟨[⟨Severity.err, "template interface names should be changed: face"⟩,
         ⟨Severity.info, "relation foo has no hooks"⟩,
         ⟨Severity.err, "template relations should be renamed to fit charm: name"⟩,
         ⟨Severity.info, "relation name has no hooks"⟩], 1⟩) ∧
    ("face" ≠ "interface-name" ∧ "name" ≠ "relation-name") :=
  ⟨rfl, by decide, by decide⟩

/-! ## Claim C9 -/

/-- Claim C9: running `proof` twice on the same unchanged charm directory
yields identical diagnostic sequences and exit codes.  Each call builds a
fresh `CharmLinter()` (line 205) and the run is a pure function of the
filesystem snapshot and the formatter, so the two runs of `proofTwice`
agree for every snapshot. -/
theorem C9_proof_idempotent (rt : String → String) (fs : CharmFS) :
    (proofTwice rt fs).1 = (proofTwice rt fs).2 := rfl

/-! ## Claim C2 -/

/-- Claim C2 counterexample: on a charm whose `metadata.yaml` fails to
parse, `proof` records the `crit` and returns at once (line 225): the
hooks-directory, copyright, autogenerated-test and config-schema
diagnostics that the claim promises are all absent, although `fsC2` is
missing the hooks directory, the copyright file and `config.yaml` and has
the autogenerated test file. -/
theorem C2_counterexample :
    Charm.proof id fsC2 =
      Except.ok ([⟨Severity.crit, "cannot parse c/metadata.yaml:boom"⟩], 1) ∧
    ¬ Diag.mk Severity.err "no hooks directory" ∈ diagsOf (Charm.proof id fsC2) ∧
    ¬ Diag.mk Severity.err "no copyright file" ∈ diagsOf (Charm.proof id fsC2) ∧
    ¬ Diag.mk Severity.warn "has templated 00-autogen test file" ∈ diagsOf (Charm.proof id fsC2) ∧
    ¬ Diag.mk Severity.warn "File config.yaml not found." ∈ diagsOf (Charm.proof id fsC2) := by
  refine ⟨rfl, ?_, ?_, ?_, ?_⟩ <;> decide

/-- Claim C2 (amended): whenever `metadata.yaml` exists but fails to parse,
`proof` records exactly the one `crit` diagnostic and returns immediately;
no filesystem-only check runs.  (The partial continuation that the claim
describes belongs to the `IOError` path where the metadata file cannot be
opened, not to the parse-failure path.) -/
theorem C2_parse_failure_returns_immediately (rt : String → String)
    (fs : CharmFS) (emsg : String) (hdir : proofDirOk fs = true)
    (hm : fs.metadata = Option.some (Except.error emsg)) :
    Charm.proof rt fs =
      Except.ok ([⟨Severity.crit, "cannot parse " ++ yamlPath fs ++ ":" ++ emsg⟩], 1) := by
  simp [Charm.proof, hdir, hm, LinterState.crit, LinterState.initial]

/-- Claim C2 witness: the amended statement applied to the concrete
snapshot `fsC2`. -/
theorem C2_witness :
    Charm.proof id fsC2 =
      Except.ok ([⟨Severity.crit, "cannot parse " ++ yamlPath fsC2 ++ ":" ++ "boom"⟩], 1) :=
  C2_parse_failure_returns_immediately id fsC2 "boom" rfl rfl

/-! ## Claim C3 -/

/-- Claim C3 counterexample: when `metadata.yaml` parses as valid YAML but
not to a mapping, `proof` does not return a (diagnostics, exit code) pair
at all: `charm.keys()` (line 229) raises `AttributeError`, and when the
mapping lacks `name`, `charm['name']` (line 234) raises `KeyError` — both
escape `proof` uncaught, with no `crit` recorded. -/
theorem C3_counterexample :
    Charm.proof id fsC3 = Except.error (PyErr.attributeError "keys") ∧
    (∀ l c, Charm.proof id fsC3 ≠ Except.ok (l, c)) ∧
    Charm.proof id fsC3b = Except.error (PyErr.keyError "name") := by
  refine ⟨rfl, ?_, rfl⟩
  intro l c h
  have h2 : (Except.error (PyErr.attributeError "keys") :
      Except PyErr (List Diag × Int)) = Except.ok (l, c) := h
  exact Except.noConfusion h2

/-- Claim C3 (amended): for a charm directory whose `metadata.yaml` parses
as valid YAML, `proof` returns a pair only when the result is a mapping
with the required keys; a non-mapping makes it raise `AttributeError`
(no `crit` diagnostic), and a mapping missing `name`, or missing `summary`,
makes it raise `KeyError`. -/
theorem C3_invalid_manifest_raises (rt : String → String) (fs : CharmFS)
    (v : PyVal) (hdir : proofDirOk fs = true)
    (hm : fs.metadata = Option.some (Except.ok v)) :
    (isMapping v = false →
      Charm.proof rt fs = Except.error (PyErr.attributeError "keys")) ∧
    (∀ kvs, v = PyVal.dict kvs → alookup kvs "name" = Option.none →
      Charm.proof rt fs = Except.error (PyErr.keyError "name")) ∧
    (∀ kvs nv, v = PyVal.dict kvs → alookup kvs "name" = Option.some nv →
      alookup kvs "summary" = Option.none →
      Charm.proof rt fs = Except.error (PyErr.keyError "summary")) := by
  refine ⟨?_, ?_, ?_⟩
  · intro hv
    cases v <;> simp_all [Charm.proof, mainBody, hdir, hm, isMapping]
  · intro kvs hveq hname
    subst hveq
    simp [Charm.proof, mainBody, hdir, hm, checkName, hname]
  · intro kvs nv hveq hname hsummary
    subst hveq
    simp [Charm.proof, mainBody, hdir, hm, checkName, hname, checkSummary, hsummary]

/-- Claim C3 witness: the amended statement applied to the concrete
snapshots `fsC3` (a YAML sequence) and `fsC3b` (a mapping without
`name`). -/
theorem C3_witness :
    Charm.proof id fsC3 = Except.error (PyErr.attributeError "keys") ∧
    Charm.proof id fsC3b = Except.error (PyErr.keyError "name") :=
  ⟨(C3_invalid_manifest_raises id fsC3 (PyVal.list []) rfl rfl).1 rfl,
   (C3_invalid_manifest_raises id fsC3b (PyVal.dict [("summary", PyVal.str "s")])
     rfl rfl).2.1 [("summary", PyVal.str "s")] rfl rfl⟩

/-! ## Claim C4 -/

/-- Claim C4 counterexample: with `type: int` and the default `true`, the
default's runtime type (`bool`) disagrees with the declared type, yet
`isinstance(True, int)` holds in Python (bool subclasses int), so
`check_config_file` emits no err at all — not the exactly-one err the
claim requires. -/
theorem C4_counterexample :
    pyTypeName (PyVal.bool true) ≠ "int" ∧
    check_config_file cfgC4 LinterState.initial = (Except.ok (), LinterState.initial) :=
  ⟨by decide, rfl⟩

/-- Claim C4 (amended): for a declared recognized `type` token and a
present `default`, the mismatch err (naming the declared type and the
default's runtime type) is emitted exactly when the default fails Python's
`isinstance` against the token's host type; since bool subclasses int, a
boolean default is accepted for `type: int` even though the runtime types
differ, while exact runtime-type agreement still yields no err and every
other disagreement yields exactly one err. -/
theorem C4_isinstance_decides_mismatch (nm t : String) (d : PyVal)
    (ht : KNOWN_OPTION_TYPE_TOKENS.contains t = true) :
    ((check_config_file (cfgOneOption nm t d) LinterState.initial).2.lint.filter
        (fun x => x.sev = Severity.err)) =
      (if pyIsinst d t then []
       else [⟨Severity.err, "config.yaml: type of option " ++ nm ++ " is specified as " ++
         t ++ ", but the type of the default value is " ++ pyTypeName d⟩]) := by
  have ht2 : t = "string" ∨ t = "int" ∨ t = "float" ∨ t = "boolean" := by
    simpa [KNOWN_OPTION_TYPE_TOKENS] using ht
  rcases ht2 with h | h | h | h <;> subst h <;>
    cases hpi : pyIsinst d _ <;>
      simp [check_config_file, cfgOneOption, optionsLoop, optionCheck, alookup,
        dedupKeys, KNOWN_OPTION_KEYS, KNOWN_OPTION_TYPE_TOKENS, knownTypeTok,
        pySubscript, kotIndex, hpi, LinterState.err, LinterState.warn,
        LinterState.initial, pyStr]

/-- Claim C4 witness: the amended statement at `type: int` with the string
default `"x"`, where exactly one err naming both types is produced. -/
theorem C4_witness :
    ((check_config_file (cfgOneOption "o" "int" (PyVal.str "x"))
        LinterState.initial).2.lint.filter (fun x => x.sev = Severity.err)) =
      [⟨Severity.err, "config.yaml: type of option o is specified as int, " ++
        "but the type of the default value is str"⟩] := by
  have h := C4_isinstance_decides_mismatch "o" "int" (PyVal.str "x") (by decide)
  simpa using h

/-! ## Claim C7 -/

/-- The reported counter of the boilerplate loop: for any starting counter
and sink, the appended diagnostics number the non-blank stripped lines
consecutively from `lc + 1`, regardless of how many template lines were
filtered out before them. -/
theorem boilerLoop_lint (rn content : String) (ls : List String) (lc : Nat)
    (st : LinterState) :
    (boilerLoop rn content ls lc st).lint =
      st.lint ++ (List.enumFrom (lc + 1) (ls.filter (fun l => l.length ≠ 0))).filterMap
        (fun p => if strHas content p.2 then
          Option.some ⟨Severity.err,
            rn ++ " Includes boilerplate README.ex line " ++ toString p.1⟩
          else Option.none) := by
  induction ls generalizing lc st with
  | nil => simp [boilerLoop]
  | cons l rest ih =>
    by_cases hl : l.length = 0
    · simp [boilerLoop, hl, ih]
    · by_cases hc : strHas content l <;>
        simp [boilerLoop, hl, hc, ih, LinterState.err, List.enumFrom]

/-- Claim C7 counterexample: the template `tplC7` has a short first line
and a long second line; a README containing the second line verbatim is
reported as "line 1", while that line's 1-based line number in the
template file is 2, and no diagnostic cites line 2. -/
theorem C7_counterexample :
    checkReadmes fsC7 LinterState.initial =
      ⟨[⟨Severity.err, "README Includes boilerplate README.ex line 1"⟩], 1⟩ ∧
    tplC7[1]? = Option.some "AAAAAAAAAAAAAAAAAAAAAAAAAAAAAAAAAAAAAAAAAAAA\n" ∧
    ¬ Diag.mk Severity.err "README Includes boilerplate README.ex line 2" ∈
        (checkReadmes fsC7 LinterState.initial).lint :=
  ⟨rfl, rfl, by decide⟩

/-- Claim C7 (amended): a README containing a non-trivial template line
verbatim is reported with an err citing the README's filename and the
1-based index of the matched line among the template's non-trivial lines
(raw length at least 40 — the trailing newline counts — and non-blank
after stripping); this equals the line number in the template file only
when no preceding template line was filtered out. -/
theorem C7_boilerplate_cites_filtered_index (tpl : List String)
    (rn content : String) :
    (boilerLoop rn content (badLines tpl) 0 LinterState.initial).lint =
      (List.enumFrom 1 (nontrivialTplLines tpl)).filterMap
        (fun p => if strHas content p.2 then
          Option.some ⟨Severity.err,
            rn ++ " Includes boilerplate README.ex line " ++ toString p.1⟩
          else Option.none) := by
  have h := boilerLoop_lint rn content (badLines tpl) 0 LinterState.initial
  simpa [nontrivialTplLines, badLines, LinterState.initial] using h

/-! ## Claim C8 -/

/-- When every `requires` entry is a mapping, the search loop of lines
352-356 terminates normally and finds a container-scoped relation exactly
when one exists. -/
theorem findScopeContainer_clean (rs : List (String × PyVal))
    (hall : ∀ p ∈ rs, isMapping p.2 = true) :
    findScopeContainer rs = Except.ok (rs.any hasContainerScope) := by
  induction rs with
  | nil => rfl
  | cons hd tl ih =>
    obtain ⟨rname, rel⟩ := hd
    have hm : isMapping rel = true := hall (rname, rel) (by simp)
    have htl : ∀ p ∈ tl, isMapping p.2 = true := fun p hp => hall p (by simp [hp])
    cases rel with
    | dict kvs =>
      cases hsc : alookup kvs "scope" with
      | none =>
        simp [findScopeContainer, pyInStrKey, hsc, ih htl, hasContainerScope]
      | some v =>
        cases hv : pyEq v (PyVal.str "container") <;>
          simp [findScopeContainer, pyInStrKey, pySubscript, hsc, hv, ih htl,
            hasContainerScope]
    | str s => simp [isMapping] at hm
    | int n => simp [isMapping] at hm
    | float v => simp [isMapping] at hm
    | bool b => simp [isMapping] at hm
    | none => simp [isMapping] at hm
    | list xs => simp [isMapping] at hm

/-- Claim C8: a subordinate charm whose `requires` block is absent, or is
present with relation-map entries none of which carries `scope: container`,
gets exactly one err reading "subordinates must have at least one scope:
container relation"; when at least one entry does carry it, that err is not
yielded. -/
theorem C8_subordinate_container_rule (rq : Option (List (String × PyVal)))
    (hall : ∀ rs, rq = Option.some rs → ∀ p ∈ rs, isMapping p.2 = true) :
    countDiag ⟨Severity.err, "subordinates must have at least one scope: container relation"⟩
        (diagsOf (Charm.proof id (fsC8 rq))) =
      (if requiresHasContainer rq then 0 else 1) := by
  cases rq with
  | none => rfl
  | some rs =>
    have hf := findScopeContainer_clean rs (hall rs rfl)
    have hb : pyBasename "sub" = "sub" := rfl
    have hsl : ("s" : String).length = 1 := rfl
    cases hany : rs.any hasContainerScope <;> rw [hany] at hf <;>
      simp [Charm.proof, fsC8, mainBody, proofDirOk, resolvedPath, yamlPath,
        pathJoin, checkMetaKeys, checkName, checkSummary, checkMaintainer,
        maintainerLoop, checkCategories, checkIcon, checkReadmes, foundReadmes,
        strUpper, checkProvides, checkRequires, checkPeers, subRequiresCheck,
        getNonNone, checkRevisionMeta, check_hook, hlookup, afterTry,
        check_config_file, alookup, pyEq, pyTruthy, pyLen, pyStr,
        KNOWN_METADATA_KEYS, hb, hsl, hf, hany, requiresHasContainer, countDiag,
        diagsOf, LinterState.initial, LinterState.err, LinterState.warn, id]

/-- Claim C8 witness: the rule applied to a subordinate with no `requires`
block at all (one err), and to the spec's own example of a single globally
scoped `requires` relation (one err). -/
theorem C8_witness :
    countDiag ⟨Severity.err, "subordinates must have at least one scope: container relation"⟩
        (diagsOf (Charm.proof id (fsC8 Option.none))) = 1 ∧
    countDiag ⟨Severity.err, "subordinates must have at least one scope: container relation"⟩
        (diagsOf (Charm.proof id (fsC8 (Option.some
          [("db", PyVal.dict [("interface", PyVal.str "mysql"),
            ("scope", PyVal.str "global")])])))) = 1 := by
  constructor
  · have h := C8_subordinate_container_rule Option.none
      (fun rs hrs => Option.noConfusion hrs)
    simpa using h
  · have h := C8_subordinate_container_rule
      (Option.some [("db", PyVal.dict [("interface", PyVal.str "mysql"),
        ("scope", PyVal.str "global")])])
      (by intro rs hrs p hp; cases hrs; simp only [List.mem_singleton] at hp;
          subst hp; rfl)
    simpa using h

/-! ## Claim C10 -/

/-- Claim C10: when the `install` hook exists (stat succeeds, so the
`except OSError` branch of `check_hook` is not taken) but `open` raises
`IOError`, the exception escapes `check_hook` and lands in the
`except IOError` handler of `proof` (lines 391-393): `proof` emits the err
"could not find metadata file for ..." with the original charm name, sets
the exit code to -1, skips the remaining manifest-dependent checks (no
start/stop/config-changed diagnostics), and still runs the autogen,
revision-file and config checks afterwards. -/
theorem C10_unreadable_hook_ioerror (nm : String) (e a : Bool)
    (hb : pyBasename nm = "mycharm") :
    Charm.proof id (fsC10 nm e a) = Except.ok (
      [⟨Severity.warn, "Metadata is missing categories."⟩,
       ⟨Severity.warn, "No icon.svg file."⟩,
       ⟨Severity.warn, "no README file"⟩,
       ⟨Severity.warn, "all charms should provide at least one thing"⟩] ++
      (if e then [] else [⟨Severity.warn, "install not executable"⟩]) ++
      [⟨Severity.err, "could not find metadata file for " ++ nm⟩] ++
      (if a then [⟨Severity.warn, "has templated 00-autogen test file"⟩] else []) ++
      [⟨Severity.warn, "File config.yaml not found."⟩], -1) := by
  have hsl : ("s" : String).length = 1 := rfl
  cases e <;> cases a <;>
    simp [Charm.proof, fsC10, mainBody, proofDirOk, resolvedPath, yamlPath,
      pathJoin, checkMetaKeys, checkName, checkSummary, checkMaintainer,
      maintainerLoop, checkCategories, checkIcon, checkReadmes, foundReadmes,
      strUpper, checkProvides, checkRequires, checkPeers, subRequiresCheck,
      getNonNone, checkRevisionMeta, check_hook, hlookup, ioHandler, afterTry,
      check_config_file, alookup, pyEq, pyTruthy, pyLen, pyStr,
      KNOWN_METADATA_KEYS, hb, hsl, diagsOf, LinterState.initial, LinterState.err,
      LinterState.warn, id]

/-- Claim C10 witness: the concrete snapshot with an executable but
unreadable `install` hook and no autogenerated test file. -/
theorem C10_witness :
    Charm.proof id (fsC10 "mycharm" true false) = Except.ok (
      [⟨Severity.warn, "Metadata is missing categories."⟩,
       ⟨Severity.warn, "No icon.svg file."⟩,
       ⟨Severity.warn, "no README file"⟩,
       ⟨Severity.warn, "all charms should provide at least one thing"⟩,
       ⟨Severity.err, "could not find metadata file for mycharm"⟩,
       ⟨Severity.warn, "File config.yaml not found."⟩], -1) := by
  have h := C10_unreadable_hook_ioerror "mycharm" true false rfl
  simpa using h

end Charms
